import Mathlib

/-!
# Verification of the KAN core (`src/kan.ts`)

A shallow embedding, over exact rationals, of the numerical core of the
Kolmogorov-Arnold Network playground: the B-spline `LearnableFunction`
(knot-vector construction, knot-span search, de Boor evaluation,
basis-function recurrence, control-point gradients), the `KANEdge` and
`KANNode` state, and the network-level `buildKANNetwork`,
`kanForwardProp`, `kanBackProp` and `updateKANWeights` procedures.

JavaScript `number` arithmetic is modelled by `ℚ`.  Array reads
`a[i]` on in-bounds indices are modelled by `List.getD i 0`; every index
the embedded code uses is proved in bounds for the configurations the
theorems quantify over.  Randomized initialization is modelled by an
explicit stream of "random" rationals supplied as a parameter.
-/

/-- The state of `LearnableFunction`: grid size, the degree as stored
*after* the constructor clamps it, the input domain `[rmin, rmax]`, the
knot vector and the control points. -/
structure LearnableFunction where
  gridSize : Nat
  degree : Nat
  rmin : ℚ
  rmax : ℚ
  knotVector : List ℚ
  controlPoints : List ℚ
deriving Repr, DecidableEq

/-- Knot-vector read `this.knotVector[i]`; all uses are in bounds. -/
def LearnableFunction.kv (f : LearnableFunction) (i : Nat) : ℚ :=
  f.knotVector.getD i 0

/-- The term `initializeKnotVector`: `degree+1` copies of `min`, then
`numKnots - 2*(degree+1) = gridSize - degree` uniformly spaced interior
knots (the `i`-th is `min + (max-min)*i/(numInternalKnots+1)`), then
`degree+1` copies of `max`. -/
def initializeKnotVector (p G : Nat) (rmin rmax : ℚ) : List ℚ :=
  List.replicate (p + 1) rmin
    ++ (List.range (G - p)).map
        (fun i : Nat => rmin + (rmax - rmin) * ((i : ℚ) + 1) / (((G - p : Nat) : ℚ) + 1))
    ++ List.replicate (p + 1) rmax

/-- The `LearnableFunction` constructor for a given control-point list:
clamps the degree to `min(degree, gridSize - 1)` and builds the clamped
knot vector. (Control points are initialized separately, see
`initializeControlPoints`.) -/
def LearnableFunction.make (G d : Nat) (rmin rmax : ℚ) (cp : List ℚ) :
    LearnableFunction :=
  { gridSize := G
    degree := min d (G - 1)
    rmin := rmin
    rmax := rmax
    knotVector := initializeKnotVector (min d (G - 1)) G rmin rmax
    controlPoints := cp }

/-- The term `initializeControlPoints` for a numeric `initNoise`:
`(Math.random() - 0.5) * noise` for each of the `gridSize+1` control
points, with the stream of `Math.random()` draws passed explicitly. -/
def initializeControlPoints (G : Nat) (noise : ℚ) (rand : Nat → ℚ) : List ℚ :=
  (List.range (G + 1)).map (fun i => (rand i - 1/2) * noise)

/-- The term `Math.max(this.inputRange[0], Math.min(this.inputRange[1], x))`. -/
def LearnableFunction.clampInput (f : LearnableFunction) (x : ℚ) : ℚ :=
  max f.rmin (min f.rmax x)

/-- The binary-search loop of `findKnotSpan`.  The loop terminates for
every knot vector produced by the constructor (the interval `[low, high]`
strictly shrinks while the exit test fails); `fuel` bounds the number of
iterations and is instantiated with the knot-vector length, which the
invariant proofs show is never exhausted on constructor-built inputs. -/
def findKnotSpanLoop (kv : Nat → ℚ) (x : ℚ) : Nat → Nat → Nat → Nat
  | fuel, low, high =>
    let mid := (low + high) / 2
    if x < kv mid ∨ x ≥ kv (mid + 1) then
      match fuel with
      | 0 => mid
      | fuel + 1 =>
        if x < kv mid then findKnotSpanLoop kv x fuel low mid
        else findKnotSpanLoop kv x fuel mid high
    else mid

/-- The term `findKnotSpan`: boundary cases return `n = controlPoints.length - 1`
resp. `degree`; interior values are located by binary search. -/
def LearnableFunction.findKnotSpan (f : LearnableFunction) (x : ℚ) : Nat :=
  let n := f.controlPoints.length - 1
  let p := f.degree
  if x ≥ f.kv (n + 1) then n
  else if x ≤ f.kv p then p
  else findKnotSpanLoop f.kv x f.knotVector.length p (n + 1)

/-- One outer iteration (`r`) of the de Boor loop.  The JS inner loop
walks `j` from `degree` down to `r`, so each write `d[j]` reads only the
not-yet-rewritten `d[j-1]`; the iteration is therefore the simultaneous
update below.  Indices outside `[r, degree]` are untouched. -/
def deBoorStep (f : LearnableFunction) (span : Nat) (x : ℚ) (r : Nat)
    (d : Nat → ℚ) : Nat → ℚ :=
  fun j =>
    if r ≤ j ∧ j ≤ f.degree then
      let knotLeft := f.kv (span - f.degree + j)
      let knotRight := f.kv (span + j - r + 1)
      let alpha := (x - knotLeft) / (knotRight - knotLeft)
      (1 - alpha) * d (j - 1) + alpha * d j
    else d j

/-- The de Boor working array after outer iterations `r = 1..k`:
seeded with `d[j] = controlPoints[span - degree + j]`. -/
def deBoorD (f : LearnableFunction) (span : Nat) (x : ℚ) : Nat → Nat → ℚ
  | 0 => fun j => f.controlPoints.getD (span - f.degree + j) 0
  | r + 1 => deBoorStep f span x (r + 1) (deBoorD f span x r)

/-- The term `deBoor(span, x)`: run the `degree` outer iterations and return
`d[degree]`. -/
def LearnableFunction.deBoor (f : LearnableFunction) (span : Nat) (x : ℚ) : ℚ :=
  deBoorD f span x f.degree f.degree

/-- The term `evaluate(x)`: clamp into the domain, find the span, run de Boor. -/
def LearnableFunction.evaluate (f : LearnableFunction) (x : ℚ) : ℚ :=
  let xc := f.clampInput x
  f.deBoor (f.findKnotSpan xc) xc

/-- The term `derivative(x)`: finite difference with `h = 1e-6`, clamped to the
domain; `0` if the clamped interval has width below `1e-10`. -/
def LearnableFunction.derivative (f : LearnableFunction) (x : ℚ) : ℚ :=
  let h : ℚ := 1/1000000
  let x1 := max f.rmin (x - h)
  let x2 := min f.rmax (x + h)
  if x2 - x1 < 1/10000000000 then 0
  else (f.evaluate x2 - f.evaluate x1) / (x2 - x1)

/-- The term `updateParameters(gradients, learningRate)`: in place
`controlPoints[i] -= lr * gradients[i]` over the overlapping length of
the two vectors; entries of `controlPoints` beyond `gradients.length`
are untouched. -/
def LearnableFunction.updateParameters (f : LearnableFunction)
    (gradients : List ℚ) (learningRate : ℚ) : LearnableFunction :=
  { f with controlPoints :=
      (f.controlPoints.zipWith (fun c g => c - learningRate * g) gradients)
        ++ f.controlPoints.drop gradients.length }

/-- The term `left[i] = x - knotVector[span + 1 - i]` (set at outer iteration `i`
of `computeBasisFunctions` and never overwritten, hence a pure function
of `i`). -/
def basisLeft (f : LearnableFunction) (span : Nat) (x : ℚ) (i : Nat) : ℚ :=
  x - f.kv (span + 1 - i)

/-- The term `right[i] = knotVector[span + i] - x`. -/
def basisRight (f : LearnableFunction) (span : Nat) (x : ℚ) (i : Nat) : ℚ :=
  f.kv (span + i) - x

/-- The inner loop (`r`) of `computeBasisFunctions` at outer iteration
`j`: rewrites each existing entry `b = basisFunctions[r]` to
`saved + right[r+1] * temp` with `temp = b / (right[r+1] + left[j-r])`,
carries `saved = left[j-r] * temp`, and appends the final `saved` as
`basisFunctions[j]`. -/
def basisInner (f : LearnableFunction) (span : Nat) (x : ℚ) (j : Nat) :
    Nat → ℚ → List ℚ → List ℚ
  | _, saved, [] => [saved]
  | r, saved, b :: bs =>
    let temp := b / (basisRight f span x (r + 1) + basisLeft f span x (j - r))
    (saved + basisRight f span x (r + 1) * temp)
      :: basisInner f span x j (r + 1) (basisLeft f span x (j - r) * temp) bs

/-- The basis-function array after outer iterations `j = 1..k`, starting
from `basisFunctions[0] = 1`. -/
def basisListD (f : LearnableFunction) (span : Nat) (x : ℚ) : Nat → List ℚ
  | 0 => [1]
  | j + 1 => basisInner f span x (j + 1) 0 0 (basisListD f span x j)

/-- The term `computeBasisFunctions(span, x)`: the `degree+1` active basis values. -/
def LearnableFunction.computeBasisFunctions (f : LearnableFunction)
    (span : Nat) (x : ℚ) : List ℚ :=
  basisListD f span x f.degree

/-- The term `getControlPointGradients(x)`: clamp, find the span, compute the
active basis values, and scatter them into a zero vector at positions
`span - degree + j` (the JS guard `index >= 0` is automatic here because
`span ≥ degree` always holds and the offset is natural-number
arithmetic). -/
def LearnableFunction.getControlPointGradients (f : LearnableFunction)
    (x : ℚ) : List ℚ :=
  let xc := f.clampInput x
  let span := f.findKnotSpan xc
  let p := f.degree
  let bf := f.computeBasisFunctions span xc
  (List.range (p + 1)).foldl
    (fun g j =>
      let idx := span - p + j
      if idx < g.length then g.set idx (bf.getD j 0) else g)
    (List.replicate f.controlPoints.length 0)

example :
    (LearnableFunction.make 2 1 (-1) 1 [0, 1, 2]).knotVector
      = [-1, -1, 0, 1, 1] := by
  norm_num [LearnableFunction.make, initializeKnotVector, List.range_succ, List.replicate]

example :
    (LearnableFunction.make 2 1 (-1) 1 [0, 1, 2]).evaluate (1/1000000)
      = 1 + 1/1000000 := by
  norm_num [LearnableFunction.make, initializeKnotVector, List.range_succ, List.replicate,
    LearnableFunction.evaluate, LearnableFunction.clampInput,
    LearnableFunction.findKnotSpan, findKnotSpanLoop, LearnableFunction.kv,
    LearnableFunction.deBoor, deBoorD, deBoorStep]

example :
    (LearnableFunction.make 2 1 (-1) 1 [0, 1, 2]).derivative 0 = 1 := by
  norm_num [LearnableFunction.make, initializeKnotVector, List.range_succ, List.replicate,
    LearnableFunction.derivative, LearnableFunction.evaluate,
    LearnableFunction.clampInput, LearnableFunction.findKnotSpan,
    findKnotSpanLoop, LearnableFunction.kv, LearnableFunction.deBoor,
    deBoorD, deBoorStep]

example :
    (LearnableFunction.make 2 1 (-1) 1 [0, 1, 2]).getControlPointGradients 0
      = [0, 1, 0] := by
  norm_num [LearnableFunction.make, initializeKnotVector, List.range_succ, List.replicate,
    LearnableFunction.getControlPointGradients, LearnableFunction.clampInput,
    LearnableFunction.findKnotSpan, findKnotSpanLoop, LearnableFunction.kv,
    LearnableFunction.computeBasisFunctions, basisListD, basisInner,
    basisLeft, basisRight]

/-! ## Edges, nodes and the network -/

/-- The state of `KANEdge`.  The JS object holds mutable references to
its source and destination nodes; here each edge is stored in its
destination node's `inputEdges` list and refers to its source node by
its index `srcIdx` in the previous layer.  Histogram bookkeeping is kept
so that `forward` matches the source faithfully. -/
structure KANEdge where
  srcIdx : Nat
  learnableFunction : LearnableFunction
  lastInput : ℚ
  accGradients : List ℚ
  numAccumulatedGrads : Nat
  isActive : Bool
  activationHistogram : List Nat
  outputHistogram : List Nat
  histogramRange : ℚ × ℚ
  outputHistogramRange : ℚ × ℚ
  observedInputMin : Option ℚ
  observedInputMax : Option ℚ
  observedOutputMin : Option ℚ
  observedOutputMax : Option ℚ
deriving Repr, DecidableEq

/-- The term `histogramBins` is the constant 20. -/
def histogramBins : Nat := 20

/-- The term `Math.min` against a running minimum initialized to `Infinity`,
modelled with `none` for the initial `Infinity`. -/
def optMin (cur : Option ℚ) (v : ℚ) : Option ℚ :=
  match cur with
  | none => some v
  | some c => some (min c v)

/-- The term `Math.max` against a running maximum initialized to `-Infinity`. -/
def optMax (cur : Option ℚ) (v : ℚ) : Option ℚ :=
  match cur with
  | none => some v
  | some c => some (max c v)

/-- Shared histogram update of `recordActivation` / `recordOutput`:
clamp the value into `range`, locate its bin with
`floor((v - min)/binWidth)`, clamp the bin index into `[0, bins-1]`, and
increment that bin. -/
def recordIntoHistogram (range : ℚ × ℚ) (hist : List Nat) (v : ℚ) : List Nat :=
  let vc := max range.1 (min range.2 v)
  let binWidth := (range.2 - range.1) / (histogramBins : ℚ)
  let binIndex := ⌊(vc - range.1) / binWidth⌋
  let clampedIndex := (max 0 (min ((histogramBins : Int) - 1) binIndex)).toNat
  hist.modify (· + 1) clampedIndex

/-- The term `recordActivation(input)`. -/
def KANEdge.recordActivation (e : KANEdge) (input : ℚ) : KANEdge :=
  { e with
    observedInputMin := optMin e.observedInputMin input
    observedInputMax := optMax e.observedInputMax input
    activationHistogram := recordIntoHistogram e.histogramRange e.activationHistogram input }

/-- The term `recordOutput(output)`. -/
def KANEdge.recordOutput (e : KANEdge) (output : ℚ) : KANEdge :=
  { e with
    observedOutputMin := optMin e.observedOutputMin output
    observedOutputMax := optMax e.observedOutputMax output
    outputHistogram := recordIntoHistogram e.outputHistogramRange e.outputHistogram output }

/-- The term `KANEdge.forward(input, recordHistogram)`: latch `lastInput`; an
inactive edge then returns `0`; an active edge optionally records the
input, evaluates the learnable function, optionally records the output,
and returns the value. -/
def KANEdge.forward (e : KANEdge) (input : ℚ) (recordHistogram : Bool) :
    KANEdge × ℚ :=
  let e := { e with lastInput := input }
  if !e.isActive then (e, 0)
  else
    let e := if recordHistogram then e.recordActivation input else e
    let output := e.learnableFunction.evaluate input
    let e := if recordHistogram then e.recordOutput output else e
    (e, output)

/-- The term `KANEdge.accumulateGradients(outputGradient)`: a no-op on an
inactive edge; otherwise add `outputGradient * getControlPointGradients(lastInput)`
into the accumulator over the overlapping length and bump the counter. -/
def KANEdge.accumulateGradients (e : KANEdge) (outputGradient : ℚ) : KANEdge :=
  if !e.isActive then e
  else
    let controlPointGradients :=
      e.learnableFunction.getControlPointGradients e.lastInput
    { e with
      accGradients :=
        (e.accGradients.zipWith (fun a g => a + outputGradient * g)
            controlPointGradients)
          ++ e.accGradients.drop controlPointGradients.length
      numAccumulatedGrads := e.numAccumulatedGrads + 1 }

/-- The term `KANEdge.updateParameters(learningRate)`: a no-op on an inactive
edge or when nothing was accumulated; otherwise apply the mean
accumulated gradient to the learnable function and zero the accumulator
and counter. -/
def KANEdge.updateParameters (e : KANEdge) (learningRate : ℚ) : KANEdge :=
  if !e.isActive then e
  else if e.numAccumulatedGrads > 0 then
    let avgGradients := e.accGradients.map (fun g => g / (e.numAccumulatedGrads : ℚ))
    { e with
      learnableFunction := e.learnableFunction.updateParameters avgGradients learningRate
      accGradients := e.accGradients.map (fun _ => 0)
      numAccumulatedGrads := 0 }
  else e

/-- The state of `KANNode` (output edges are back-references for
topology traversal only and are not part of the state). -/
structure KANNode where
  output : ℚ
  outputDer : ℚ
  isActive : Bool
  inputEdges : List KANEdge
deriving Repr, DecidableEq

/-- A network is the ordered list of layers of nodes. -/
abbrev KANNetwork := List (List KANNode)

/-- The term `KANNode.forward(recordHistogram)`: an inactive node outputs `0`
without touching its edges; an active node sums
`edge.forward(edge.sourceNode.output)` over its input edges (source
outputs are read from the already-computed previous layer). -/
def KANNode.forward (n : KANNode) (prevOutputs : List ℚ) (recordHistogram : Bool) :
    KANNode :=
  if !n.isActive then { n with output := 0 }
  else
    let step := n.inputEdges.foldl
      (fun (acc : List KANEdge × ℚ) e =>
        let fwd := e.forward (prevOutputs.getD e.srcIdx 0) recordHistogram
        (acc.1 ++ [fwd.1], acc.2 + fwd.2))
      ([], 0)
    { n with inputEdges := step.1, output := step.2 }

/-- The term `KANNode.backward()` for one node: an inactive node does nothing;
an active node, for each input edge in order, computes
`inputGrad = outputDer * derivative(lastInput)`, accumulates gradients
on the edge with `outputDer`, and adds `inputGrad` into the source
node's `outputDer` in the previous layer. -/
def KANNode.backward (n : KANNode) (prevLayer : List KANNode) :
    KANNode × List KANNode :=
  if !n.isActive then (n, prevLayer)
  else
    let step := n.inputEdges.foldl
      (fun (acc : List KANEdge × List KANNode) e =>
        let inputGrad := n.outputDer * e.learnableFunction.derivative e.lastInput
        let e' := e.accumulateGradients n.outputDer
        (acc.1 ++ [e'],
         acc.2.modify (fun sn => { sn with outputDer := sn.outputDer + inputGrad })
           e.srcIdx))
      ([], prevLayer)
    ({ n with inputEdges := step.1 }, step.2)

/-- An error function: `error` and its derivative `der`. -/
structure ErrorFunction where
  error : ℚ → ℚ → ℚ
  der : ℚ → ℚ → ℚ

/-- The term `Errors.SQUARE`: squared error and its derivative. -/
def Errors.SQUARE : ErrorFunction :=
  { error := fun output target => 1/2 * (output - target) ^ 2
    der := fun output target => output - target }

/-- The `KANEdge` constructor for a source-node index: fresh learnable
function on `[-1, 1]` (control points drawn from the given stream with
numeric noise), zeroed gradient accumulator of length `gridSize + 1`,
active flag set, and freshly reset histograms. -/
def mkKANEdge (srcIdx gridSize degree : Nat) (noise : ℚ) (rand : Nat → ℚ) :
    KANEdge :=
  { srcIdx := srcIdx
    learnableFunction :=
      LearnableFunction.make gridSize degree (-1) 1
        (initializeControlPoints gridSize noise rand)
    lastInput := 0
    accGradients := List.replicate (gridSize + 1) 0
    numAccumulatedGrads := 0
    isActive := true
    activationHistogram := List.replicate histogramBins 0
    outputHistogram := List.replicate histogramBins 0
    histogramRange := (-1, 1)
    outputHistogramRange := (-2, 2)
    observedInputMin := none
    observedInputMax := none
    observedOutputMin := none
    observedOutputMax := none }

/-- The term `buildKANNetwork(networkShape, inputIds, gridSize, degree, initNoise)`
for a numeric `initNoise`: one layer of fresh nodes per shape entry, and
for every layer pair one edge per (destination, source) pair, each
destination node receiving its input edges in source order.  `rands`
supplies the `Math.random()` stream for the edge of layer `layerIdx`,
destination `j`, source `si`.  (Node ids serve display only and are not
part of the state.) -/
def buildKANNetwork (networkShape : List Nat) (gridSize degree : Nat)
    (noise : ℚ) (rands : Nat → Nat → Nat → Nat → ℚ) : KANNetwork :=
  (List.range networkShape.length).map (fun layerIdx =>
    (List.range (networkShape.getD layerIdx 0)).map (fun j =>
      { output := 0
        outputDer := 0
        isActive := true
        inputEdges :=
          if layerIdx = 0 then []
          else
            (List.range (networkShape.getD (layerIdx - 1) 0)).map
              (fun si => mkKANEdge si gridSize degree noise (rands layerIdx j si)) }))

/-- The term `getKANOutputNode`: `network[network.length - 1][0]`. -/
def getKANOutputNode (network : KANNetwork) : KANNode :=
  (network.getD (network.length - 1) []).getD 0
    { output := 0, outputDer := 0, isActive := true, inputEdges := [] }

/-- Forward propagation through the layers after the input layer: each
layer's nodes run `forward` against the outputs of the (already
computed) previous layer. -/
def forwardLayers (prevOutputs : List ℚ) (recordHistogram : Bool) :
    List (List KANNode) → List (List KANNode)
  | [] => []
  | layer :: rest =>
    let layer' := layer.map (fun n => n.forward prevOutputs recordHistogram)
    layer' :: forwardLayers (layer'.map KANNode.output) recordHistogram rest

/-- The term `kanForwardProp(network, inputs, recordHistogram)`: the shape check
throws before any state is touched; otherwise the input layer's outputs
are assigned directly and the remaining layers run `forward` in order.
Returns the updated network and the single output node's value. -/
def kanForwardProp (network : KANNetwork) (inputs : List ℚ)
    (recordHistogram : Bool) : Except String (KANNetwork × ℚ) :=
  let inputLayer := network.getD 0 []
  if inputs.length ≠ inputLayer.length then
    .error "Number of inputs must match input layer size"
  else
    let inputLayer' :=
      List.zipWith (fun n x => { n with output := x }) inputLayer inputs
    let net' := inputLayer' ::
      forwardLayers (inputLayer'.map KANNode.output) recordHistogram
        (network.drop 1)
    .ok (net', (getKANOutputNode net').output)

/-- Setting `outputNode.outputDer = errorFunc.der(outputNode.output, target)`
at the start of `kanBackProp`. -/
def setOutputNodeDer (network : KANNetwork) (target : ℚ)
    (errorFunc : ErrorFunction) : KANNetwork :=
  network.modify
    (fun layer =>
      layer.modify (fun n => { n with outputDer := errorFunc.der n.output target }) 0)
    (network.length - 1)

/-- Zeroing the `outputDer` of every node of a layer. -/
def zeroLayerDer (layer : List KANNode) : List KANNode :=
  layer.map (fun n => { n with outputDer := 0 })

/-- The state of the network inside the `kanBackProp` loop at layer
`layerIdx`, after the conditional reset and immediately before
`backward()` runs on the layer's nodes: the previous layer's `outputDer`
are zeroed only when `layerIdx > 1`. -/
def preBackwardState (network : KANNetwork) (layerIdx : Nat) : KANNetwork :=
  if layerIdx > 1 then network.modify zeroLayerDer (layerIdx - 1) else network

/-- The term `backward()` over the nodes of one layer in order, threading the
mutations of the previous layer's nodes through. -/
def backwardLayer (prevLayer currentLayer : List KANNode) :
    List KANNode × List KANNode :=
  currentLayer.foldl
    (fun acc n =>
      let r := n.backward acc.2
      (acc.1 ++ [r.1], r.2))
    ([], prevLayer)

/-- One iteration of the `kanBackProp` layer loop. -/
def kanBackPropStep (network : KANNetwork) (layerIdx : Nat) : KANNetwork :=
  let net1 := preBackwardState network layerIdx
  let res := backwardLayer (net1.getD (layerIdx - 1) []) (net1.getD layerIdx [])
  (net1.set (layerIdx - 1) res.2).set layerIdx res.1

/-- The `kanBackProp` loop, walking `layerIdx` from its first argument
down to `1`. -/
def kanBackPropLoop (network : KANNetwork) : Nat → KANNetwork
  | 0 => network
  | i + 1 => kanBackPropLoop (kanBackPropStep network (i + 1)) i

/-- The term `kanBackProp(network, target, errorFunc)`. -/
def kanBackProp (network : KANNetwork) (target : ℚ)
    (errorFunc : ErrorFunction) : KANNetwork :=
  kanBackPropLoop (setOutputNodeDer network target errorFunc)
    (network.length - 1)

/-- The term `updateKANWeights(network, learningRate)`: every edge of every layer
after the input layer runs `updateParameters`. -/
def updateKANWeights (network : KANNetwork) (learningRate : ℚ) : KANNetwork :=
  match network with
  | [] => []
  | inputLayer :: rest =>
    inputLayer :: rest.map (fun layer => layer.map (fun n =>
      { n with inputEdges := n.inputEdges.map (fun e => e.updateParameters learningRate) }))

/-- The edge stored at layer `k`, node `j`, input-edge position `m`. -/
def edgeAt (network : KANNetwork) (k j m : Nat) : KANEdge :=
  (((network.getD k []).getD j
      { output := 0, outputDer := 0, isActive := true, inputEdges := [] }).inputEdges).getD m
    (mkKANEdge 0 0 0 0 (fun _ => 0))

/-! ## Helper lemmas -/

lemma getD_map_eq {α β : Type _} (f : α → β) (l : List α) (i : Nat) (d : β) :
    (l.map f).getD i d = (l[i]?.map f).getD d := by
  simp [List.getD_eq_getElem?_getD, List.getElem?_map]

/-- An inactive edge is a fixed point of `updateParameters`. -/
lemma updateParameters_inactive (e : KANEdge) (he : e.isActive = false) (lr : ℚ) :
    e.updateParameters lr = e := by
  simp [KANEdge.updateParameters, he]

/-- The term `updateKANWeights` leaves an inactive edge's whole state unchanged. -/
lemma updateKANWeights_inactive_edgeAt (net : KANNetwork) (lr : ℚ) (k j m : Nat)
    (h : (edgeAt net k j m).isActive = false) :
    edgeAt (updateKANWeights net lr) k j m = edgeAt net k j m := by
  cases net with
  | nil => rfl
  | cons l0 rest =>
    cases k with
    | zero => rfl
    | succ k' =>
      unfold edgeAt at h ⊢
      simp only [updateKANWeights, List.getD_cons_succ] at h ⊢
      simp only [List.getD_eq_getElem?_getD] at h ⊢
      rw [List.getElem?_map]
      cases hk : rest[k']? with
      | none =>
        simp only [hk, Option.map_none', Option.getD_none] at h ⊢
      | some layer =>
        simp only [hk, Option.map_some', Option.getD_some] at h ⊢
        rw [List.getElem?_map]
        cases hj : layer[j]? with
        | none =>
          simp only [hj, Option.map_none', Option.getD_none] at h ⊢
        | some nd =>
          simp only [hj, Option.map_some', Option.getD_some] at h ⊢
          rw [List.getElem?_map]
          cases hm : nd.inputEdges[m]? with
          | none =>
            simp only [hm, Option.map_none', Option.getD_none] at h ⊢
          | some e =>
            simp only [hm, Option.map_some', Option.getD_some] at h ⊢
            exact updateParameters_inactive e h lr

/-- C2: for an inactive edge, a forward pass contributes exactly `0`,
`accumulateGradients` leaves the edge (in particular its accumulator
and example counter) unchanged, `updateParameters` leaves the edge (in
particular every control point) unchanged, and `updateKANWeights`
leaves any inactive edge of a network unchanged. -/
theorem inactive_edge_isolation (e : KANEdge) (x g lr : ℚ) (rh : Bool)
    (net : KANNetwork) (k j m : Nat)
    (he : e.isActive = false)
    (hnet : (edgeAt net k j m).isActive = false) :
    (e.forward x rh).2 = 0 ∧
    e.accumulateGradients g = e ∧
    e.updateParameters lr = e ∧
    edgeAt (updateKANWeights net lr) k j m = edgeAt net k j m := by
  refine ⟨?_, ?_, ?_, ?_⟩
  · simp [KANEdge.forward, he]
  · simp [KANEdge.accumulateGradients, he]
  · exact updateParameters_inactive e he lr
  · exact updateKANWeights_inactive_edgeAt net lr k j m hnet

/-- Witness for `inactive_edge_isolation`. -/
theorem inactive_edge_isolation_witness :
    let e := { mkKANEdge 0 2 1 0 (fun _ => 0) with isActive := false }
    let net : KANNetwork :=
      [[{ output := 0, outputDer := 0, isActive := true, inputEdges := [] }],
       [{ output := 0, outputDer := 0, isActive := true, inputEdges := [e] }]]
    (e.forward (1/2) true).2 = 0 ∧
    e.accumulateGradients 1 = e ∧
    e.updateParameters (1/10) = e ∧
    edgeAt (updateKANWeights net (1/10)) 1 0 0 = edgeAt net 1 0 0 := by
  exact inactive_edge_isolation _ (1/2) 1 (1/10) true _ 1 0 0 rfl rfl

/-- C3: `kanForwardProp` fails with the shape-mismatch error exactly
when the number of inputs differs from the input layer's size, and the
check precedes every state change: the error branch returns before the
input layer is written, any `forward` runs, or any histogram is
recorded. -/
theorem forwardProp_shape_error (network : KANNetwork) (inputs : List ℚ)
    (rh : Bool) :
    kanForwardProp network inputs rh
        = Except.error "Number of inputs must match input layer size"
      ↔ inputs.length ≠ (network.getD 0 []).length := by
  unfold kanForwardProp
  by_cases h : inputs.length = (network.getD 0 []).length <;> simp [h]

/-- Witness for `forwardProp_shape_error` (the mismatch direction at a
concrete network). -/
theorem forwardProp_shape_error_witness :
    kanForwardProp [[{ output := 0, outputDer := 0, isActive := true, inputEdges := [] }]] [1, 2] false
        = Except.error "Number of inputs must match input layer size" := by
  exact (forwardProp_shape_error _ _ _).mpr (by simp)

lemma getD_zipWith_eq {α : Type _} (f : α → α → α) (l1 l2 : List α) (i : Nat)
    (d : α) (h1 : i < l1.length) (h2 : i < l2.length) :
    (List.zipWith f l1 l2).getD i d = f (l1.getD i d) (l2.getD i d) := by
  simp [List.getD_eq_getElem?_getD, List.getElem?_zipWith,
    List.getElem?_eq_getElem, h1, h2]

lemma getD_map_in {α β : Type _} (f : α → β) (l : List α) (i : Nat) (d : β)
    (d' : α) (h : i < l.length) :
    (l.map f).getD i d = f (l.getD i d') := by
  simp [List.getD_eq_getElem?_getD, List.getElem?_map,
    List.getElem?_eq_getElem h]

/-- C7: `KANEdge.updateParameters(lr)` on an active edge: with no
accumulated examples it is a complete no-op (no error: the mean-gradient
division is never reached); with `k > 0` accumulated examples it sets
each control point `i` to `cp[i] - lr * (accGradients[i] / k)`, then
zeroes every accumulator slot and the counter. -/
theorem updateParameters_spec (e : KANEdge) (lr : ℚ)
    (ha : e.isActive = true)
    (hlen : e.accGradients.length = e.learnableFunction.controlPoints.length) :
    (e.numAccumulatedGrads = 0 → e.updateParameters lr = e) ∧
    (0 < e.numAccumulatedGrads →
      (e.updateParameters lr).learnableFunction.controlPoints.length
          = e.learnableFunction.controlPoints.length ∧
      (∀ i, i < e.learnableFunction.controlPoints.length →
        (e.updateParameters lr).learnableFunction.controlPoints.getD i 0
          = e.learnableFunction.controlPoints.getD i 0
            - lr * (e.accGradients.getD i 0 / (e.numAccumulatedGrads : ℚ))) ∧
      (e.updateParameters lr).accGradients
          = List.replicate e.accGradients.length 0 ∧
      (e.updateParameters lr).numAccumulatedGrads = 0) := by
  constructor
  · intro h0
    simp [KANEdge.updateParameters, ha, h0]
  · intro hpos
    have hupd : e.updateParameters lr =
        { e with
          learnableFunction := e.learnableFunction.updateParameters
            (e.accGradients.map (fun g => g / (e.numAccumulatedGrads : ℚ))) lr
          accGradients := e.accGradients.map (fun _ => 0)
          numAccumulatedGrads := 0 } := by
      simp [KANEdge.updateParameters, ha, hpos]
    have hmaplen :
        (e.accGradients.map (fun g => g / (e.numAccumulatedGrads : ℚ))).length
          = e.learnableFunction.controlPoints.length := by
      simp [List.length_map, hlen]
    have hdrop :
        e.learnableFunction.controlPoints.drop
          (e.accGradients.map (fun g => g / (e.numAccumulatedGrads : ℚ))).length
            = [] :=
      List.drop_eq_nil_of_le (le_of_eq hmaplen.symm)
    refine ⟨?_, ?_, ?_, ?_⟩
    · rw [hupd]
      simp [LearnableFunction.updateParameters, hdrop, List.length_zipWith,
        hmaplen]
    · intro i hi
      rw [hupd]
      simp only [LearnableFunction.updateParameters]
      rw [List.getD_append _ _ _ i
          (by rw [List.length_zipWith, hmaplen]; exact lt_min hi hi)]
      rw [getD_zipWith_eq _ _ _ _ _ hi (by rw [hmaplen]; exact hi)]
      rw [getD_map_in _ _ _ _ 0 (by rw [hlen]; exact hi)]
    · rw [hupd]
      simp [List.map_const']
    · rw [hupd]

/-- Witness for `updateParameters_spec`: an active edge with
`accGradients = [4, 6]`, two accumulated examples, control points
`[1, 2]`, learning rate `1/2`: new control points `[0, 1/2]`. -/
theorem updateParameters_spec_witness :
    let e : KANEdge :=
      { mkKANEdge 0 1 1 0 (fun _ => 0) with
        learnableFunction :=
          { LearnableFunction.make 1 1 (-1) 1 [1, 2] with controlPoints := [1, 2] }
        accGradients := [4, 6]
        numAccumulatedGrads := 2 }
    (e.numAccumulatedGrads = 0 → e.updateParameters (1/2) = e) ∧
    (0 < e.numAccumulatedGrads →
      (e.updateParameters (1/2)).learnableFunction.controlPoints.length
          = e.learnableFunction.controlPoints.length ∧
      (∀ i, i < e.learnableFunction.controlPoints.length →
        (e.updateParameters (1/2)).learnableFunction.controlPoints.getD i 0
          = e.learnableFunction.controlPoints.getD i 0
            - (1/2) * (e.accGradients.getD i 0 / (e.numAccumulatedGrads : ℚ))) ∧
      (e.updateParameters (1/2)).accGradients
          = List.replicate e.accGradients.length 0 ∧
      (e.updateParameters (1/2)).numAccumulatedGrads = 0) :=
  updateParameters_spec _ (1/2) rfl rfl

/-! ## Structure of the constructor-built knot vector -/

lemma initializeKnotVector_length (p G : Nat) (rmin rmax : ℚ) (hp : p ≤ G) :
    (initializeKnotVector p G rmin rmax).length = G + p + 2 := by
  simp only [initializeKnotVector, List.length_append, List.length_replicate,
    List.length_map, List.length_range]
  omega

/-- Closed form of the clamped knot vector: entry `i` (for
`i ≤ G + p + 1`) equals
`rmin + (rmax - rmin) * (min i (G+1) - p) / (G - p + 1)`
(with truncated natural subtraction, so the first `p+1` entries are
`rmin` and the last `p+1` are `rmax`). -/
lemma initializeKnotVector_getD (p G : Nat) (rmin rmax : ℚ) (hp : p ≤ G)
    (i : Nat) (hi : i ≤ G + p + 1) :
    (initializeKnotVector p G rmin rmax).getD i 0
      = rmin + (rmax - rmin) * ((min i (G + 1) - p : Nat) : ℚ)
          / (((G - p : Nat) : ℚ) + 1) := by
  unfold initializeKnotVector
  rcases lt_or_ge i (p + 1) with h1 | h1
  · rw [List.getD_append _ _ _ i
        (by simp [List.length_append, List.length_replicate, List.length_map, List.length_range]; omega)]
    rw [List.getD_append _ _ _ i (by simp [List.length_replicate]; omega)]
    rw [List.getD_eq_getElem?_getD, List.getElem?_replicate, if_pos h1]
    have hz : min i (G + 1) - p = 0 := by omega
    rw [hz]
    norm_num
  · rcases lt_or_ge i (p + 1 + (G - p)) with h2 | h2
    · rw [List.getD_append _ _ _ i
          (by simp [List.length_append, List.length_replicate, List.length_map, List.length_range]; omega)]
      rw [List.getD_append_right _ _ _ i (by simp [List.length_replicate]; omega)]
      rw [List.length_replicate]
      rw [getD_map_in _ _ _ _ 0 (by simp [List.length_range]; omega)]
      have hrange : (List.range (G - p)).getD (i - (p + 1)) 0 = i - (p + 1) := by
        rw [List.getD_eq_getElem?_getD, List.getElem?_range (by omega)]
        rfl
      rw [hrange]
      have hmin : min i (G + 1) = i := by omega
      have hsub : i - p = (i - (p + 1)) + 1 := by omega
      rw [hmin, hsub]
      push_cast
      ring
    · rw [List.getD_append_right _ _ _ i
          (by simp [List.length_append, List.length_replicate, List.length_map, List.length_range]; omega)]
      rw [List.getD_eq_getElem?_getD]
      have hlen : (List.replicate (p + 1) rmin
          ++ (List.range (G - p)).map
            (fun i : Nat => rmin + (rmax - rmin) * ((i : ℚ) + 1) / (((G - p : Nat) : ℚ) + 1))).length
            = p + 1 + (G - p) := by
        simp [List.length_append, List.length_replicate, List.length_map,
          List.length_range]
      rw [hlen, List.getElem?_replicate, if_pos (by omega), Option.getD_some]
      have hmin : min i (G + 1) - p = (G - p) + 1 := by omega
      rw [hmin]
      have hD : (((G - p : Nat) : ℚ) + 1) ≠ 0 := by positivity
      push_cast
      rw [mul_div_assoc, div_self hD, mul_one]
      ring

/-- The constructor-built knot vector is non-decreasing (on indices up
to `G + p + 1`). -/
lemma initializeKnotVector_mono (p G : Nat) (rmin rmax : ℚ) (hp : p ≤ G)
    (hr : rmin ≤ rmax) (a b : Nat) (hab : a ≤ b) (hb : b ≤ G + p + 1) :
    (initializeKnotVector p G rmin rmax).getD a 0
      ≤ (initializeKnotVector p G rmin rmax).getD b 0 := by
  rw [initializeKnotVector_getD p G rmin rmax hp a (le_trans hab hb),
    initializeKnotVector_getD p G rmin rmax hp b hb]
  have hnum : ((min a (G + 1) - p : Nat) : ℚ) ≤ ((min b (G + 1) - p : Nat) : ℚ) := by
    have hn : (min a (G + 1) - p : Nat) ≤ (min b (G + 1) - p : Nat) := by omega
    exact_mod_cast hn
  have hD : (0 : ℚ) < ((G - p : Nat) : ℚ) + 1 := by positivity
  have hrr : (0 : ℚ) ≤ rmax - rmin := by linarith
  gcongr

/-- Strict increase across each knot span in `[p, G+1]`. -/
lemma initializeKnotVector_strict_succ (p G : Nat) (rmin rmax : ℚ)
    (hp : p ≤ G) (hr : rmin < rmax) (s : Nat) (hs : p ≤ s) (hsG : s ≤ G) :
    (initializeKnotVector p G rmin rmax).getD s 0
      < (initializeKnotVector p G rmin rmax).getD (s + 1) 0 := by
  rw [initializeKnotVector_getD p G rmin rmax hp s (by omega),
    initializeKnotVector_getD p G rmin rmax hp (s + 1) (by omega)]
  have hnum : ((min s (G + 1) - p : Nat) : ℚ) < ((min (s + 1) (G + 1) - p : Nat) : ℚ) := by
    have hn : (min s (G + 1) - p : Nat) < (min (s + 1) (G + 1) - p : Nat) := by omega
    exact_mod_cast hn
  have hD : (0 : ℚ) < ((G - p : Nat) : ℚ) + 1 := by positivity
  have hrr : (0 : ℚ) < rmax - rmin := by linarith
  gcongr

/-! ## Knot-span bounds -/

/-- The binary-search loop keeps its result inside `[low0, n0]` as long
as the interval invariants hold. -/
lemma findKnotSpanLoop_bounds (kv : Nat → ℚ) (x : ℚ) (p0 n0 : Nat) :
    ∀ fuel low high, p0 ≤ low → low ≤ n0 → high ≤ n0 + 1 → low ≤ high →
      p0 ≤ findKnotSpanLoop kv x fuel low high ∧
        findKnotSpanLoop kv x fuel low high ≤ n0 := by
  intro fuel
  induction fuel with
  | zero =>
    intro low high hl hn hh hlh
    rw [findKnotSpanLoop]
    constructor
    · split <;> omega
    · split <;> omega
  | succ fuel ih =>
    intro low high hl hn hh hlh
    rw [findKnotSpanLoop]
    by_cases hcond : x < kv ((low + high) / 2) ∨ x ≥ kv ((low + high) / 2 + 1)
    · simp only [hcond, if_true]
      by_cases hlt : x < kv ((low + high) / 2)
      · simp only [hlt, if_true]
        exact ih low ((low + high) / 2) hl hn (by omega) (by omega)
      · simp only [hlt, if_false]
        exact ih ((low + high) / 2) high (by omega) (by omega) hh (by omega)
    · simp only [hcond, if_false]
      omega

/-- For a constructor-built function, `findKnotSpan` always returns a
span in `[degree, gridSize]`. -/
lemma findKnotSpan_bounds (G d : Nat) (rmin rmax : ℚ) (cp : List ℚ)
    (hG : 1 ≤ G) (hcp : cp.length = G + 1) (x : ℚ) :
    (LearnableFunction.make G d rmin rmax cp).degree
        ≤ (LearnableFunction.make G d rmin rmax cp).findKnotSpan x ∧
      (LearnableFunction.make G d rmin rmax cp).findKnotSpan x ≤ G := by
  have hdeg : (LearnableFunction.make G d rmin rmax cp).degree = min d (G - 1) := rfl
  have hpG : min d (G - 1) ≤ G := by omega
  unfold LearnableFunction.findKnotSpan
  have hcpl : (LearnableFunction.make G d rmin rmax cp).controlPoints.length
      = G + 1 := hcp
  rw [hcpl, hdeg]
  have hn : G + 1 - 1 = G := by omega
  rw [hn]
  by_cases h1 : x ≥ (LearnableFunction.make G d rmin rmax cp).kv (G + 1)
  · simp only [h1, if_true]
    omega
  · simp only [h1, if_false]
    by_cases h2 : x ≤ (LearnableFunction.make G d rmin rmax cp).kv (min d (G - 1))
    · simp only [h2, if_true]
      omega
    · simp only [h2, if_false]
      exact findKnotSpanLoop_bounds _ x (min d (G - 1)) G _
        (min d (G - 1)) (G + 1) le_rfl (by omega) le_rfl (by omega)

/-- Knot-vector length of a constructor-built function. -/
lemma make_knotVector_length (G d : Nat) (rmin rmax : ℚ) (cp : List ℚ)
    (hG : 1 ≤ G) :
    (LearnableFunction.make G d rmin rmax cp).knotVector.length
      = G + min d (G - 1) + 2 :=
  initializeKnotVector_length _ _ _ _ (by omega)

/-- Monotonicity of `kv` for a constructor-built function. -/
lemma make_kv_mono (G d : Nat) (rmin rmax : ℚ) (cp : List ℚ)
    (hG : 1 ≤ G) (hr : rmin ≤ rmax) (a b : Nat) (hab : a ≤ b)
    (hb : b ≤ G + min d (G - 1) + 1) :
    (LearnableFunction.make G d rmin rmax cp).kv a
      ≤ (LearnableFunction.make G d rmin rmax cp).kv b :=
  initializeKnotVector_mono _ _ _ _ (by omega) hr a b hab hb

/-- Strict increase of `kv` across spans in `[degree, G]` for a
constructor-built function. -/
lemma make_kv_strict_succ (G d : Nat) (rmin rmax : ℚ) (cp : List ℚ)
    (_hG : 1 ≤ G) (hr : rmin < rmax) (s : Nat)
    (hs : min d (G - 1) ≤ s) (hsG : s ≤ G) :
    (LearnableFunction.make G d rmin rmax cp).kv s
      < (LearnableFunction.make G d rmin rmax cp).kv (s + 1) :=
  initializeKnotVector_strict_succ _ _ _ _ (by omega) hr s hs hsG

/-- Strict comparison `kv a < kv b` whenever the indices straddle a span
`[s, s+1]` with `degree ≤ s ≤ G`. -/
lemma make_kv_straddle (G d : Nat) (rmin rmax : ℚ) (cp : List ℚ)
    (hG : 1 ≤ G) (hr : rmin < rmax) (s a b : Nat)
    (hs1 : min d (G - 1) ≤ s) (hs2 : s ≤ G)
    (ha : a ≤ s) (hb : s + 1 ≤ b) (hbmax : b ≤ G + min d (G - 1) + 1) :
    (LearnableFunction.make G d rmin rmax cp).kv a
      < (LearnableFunction.make G d rmin rmax cp).kv b :=
  lt_of_le_of_lt
    (make_kv_mono G d rmin rmax cp hG (le_of_lt hr) a s ha (by omega))
    (lt_of_lt_of_le
      (make_kv_strict_succ G d rmin rmax cp hG hr s hs1 hs2)
      (make_kv_mono G d rmin rmax cp hG (le_of_lt hr) (s + 1) b hb hbmax))

/-- C10: for every constructor-built function and every input,
`findKnotSpan` returns a span `s` with `degree ≤ s ≤ gridSize` (which is
`#controlPoints - 1`); consequently every control-point index
`s - degree + j` (`j ≤ degree`) read by `deBoor` and by the gradient
scatter is within bounds, and every knot index used by `deBoor`,
`computeBasisFunctions` and `findKnotSpan` itself (all of which are at
most `s + degree + 1`, resp. `#controlPoints`) is within the knot
vector, so `evaluate` and `getControlPointGradients` are total. -/
theorem findKnotSpan_in_range (G d : Nat) (rmin rmax : ℚ) (cp : List ℚ)
    (hG : 1 ≤ G) (hcp : cp.length = G + 1) (x : ℚ) :
    (LearnableFunction.make G d rmin rmax cp).degree
        ≤ (LearnableFunction.make G d rmin rmax cp).findKnotSpan x ∧
    (LearnableFunction.make G d rmin rmax cp).findKnotSpan x ≤ G ∧
    (∀ j, j ≤ (LearnableFunction.make G d rmin rmax cp).degree →
      (LearnableFunction.make G d rmin rmax cp).findKnotSpan x
          - (LearnableFunction.make G d rmin rmax cp).degree + j
        < (LearnableFunction.make G d rmin rmax cp).controlPoints.length) ∧
    (LearnableFunction.make G d rmin rmax cp).findKnotSpan x
        + (LearnableFunction.make G d rmin rmax cp).degree + 1
      < (LearnableFunction.make G d rmin rmax cp).knotVector.length ∧
    (LearnableFunction.make G d rmin rmax cp).controlPoints.length - 1 + 1
      < (LearnableFunction.make G d rmin rmax cp).knotVector.length := by
  obtain ⟨hlo, hhi⟩ := findKnotSpan_bounds G d rmin rmax cp hG hcp x
  have hdeg : (LearnableFunction.make G d rmin rmax cp).degree = min d (G - 1) := rfl
  have hcpl : (LearnableFunction.make G d rmin rmax cp).controlPoints.length
      = G + 1 := hcp
  have hkvl := make_knotVector_length G d rmin rmax cp hG
  refine ⟨hlo, hhi, ?_, ?_, ?_⟩
  · intro j hj
    rw [hcpl]
    omega
  · rw [hkvl]
    omega
  · rw [hcpl, hkvl]
    omega

/-- Witness for `findKnotSpan_in_range`. -/
theorem findKnotSpan_in_range_witness :
    (LearnableFunction.make 2 1 (-1) 1 [0, 1, 2]).degree
        ≤ (LearnableFunction.make 2 1 (-1) 1 [0, 1, 2]).findKnotSpan (1/3) ∧
    (LearnableFunction.make 2 1 (-1) 1 [0, 1, 2]).findKnotSpan (1/3) ≤ 2 ∧
    (∀ j, j ≤ (LearnableFunction.make 2 1 (-1) 1 [0, 1, 2]).degree →
      (LearnableFunction.make 2 1 (-1) 1 [0, 1, 2]).findKnotSpan (1/3)
          - (LearnableFunction.make 2 1 (-1) 1 [0, 1, 2]).degree + j
        < (LearnableFunction.make 2 1 (-1) 1 [0, 1, 2]).controlPoints.length) ∧
    (LearnableFunction.make 2 1 (-1) 1 [0, 1, 2]).findKnotSpan (1/3)
        + (LearnableFunction.make 2 1 (-1) 1 [0, 1, 2]).degree + 1
      < (LearnableFunction.make 2 1 (-1) 1 [0, 1, 2]).knotVector.length ∧
    (LearnableFunction.make 2 1 (-1) 1 [0, 1, 2]).controlPoints.length - 1 + 1
      < (LearnableFunction.make 2 1 (-1) 1 [0, 1, 2]).knotVector.length :=
  findKnotSpan_in_range 2 1 (-1) 1 [0, 1, 2] (by norm_num) rfl (1/3)

/-- C6: for every constructor-built function (any grid size ≥ 1, any
requested degree, any domain with `rmin < rmax`) and every input `x`,
every denominator of the de Boor recursion of `evaluate`
(`knotRight - knotLeft` at span `s`) and of the basis recursion of
`getControlPointGradients` (`right[r+1] + left[j-r]`) is strictly
positive, so no division by zero (hence no NaN from a repeated-knot
division) occurs. -/
theorem spline_denominators_pos (G d : Nat) (rmin rmax : ℚ) (cp : List ℚ)
    (hG : 1 ≤ G) (hcp : cp.length = G + 1) (hr : rmin < rmax) (x : ℚ) :
    (∀ r j, 1 ≤ r → r ≤ j →
      j ≤ (LearnableFunction.make G d rmin rmax cp).degree →
      0 < (LearnableFunction.make G d rmin rmax cp).kv
            ((LearnableFunction.make G d rmin rmax cp).findKnotSpan
              ((LearnableFunction.make G d rmin rmax cp).clampInput x) + j - r + 1)
          - (LearnableFunction.make G d rmin rmax cp).kv
            ((LearnableFunction.make G d rmin rmax cp).findKnotSpan
              ((LearnableFunction.make G d rmin rmax cp).clampInput x)
              - (LearnableFunction.make G d rmin rmax cp).degree + j)) ∧
    (∀ j r, 1 ≤ j →
      j ≤ (LearnableFunction.make G d rmin rmax cp).degree → r < j →
      0 < basisRight (LearnableFunction.make G d rmin rmax cp)
            ((LearnableFunction.make G d rmin rmax cp).findKnotSpan
              ((LearnableFunction.make G d rmin rmax cp).clampInput x))
            ((LearnableFunction.make G d rmin rmax cp).clampInput x) (r + 1)
          + basisLeft (LearnableFunction.make G d rmin rmax cp)
            ((LearnableFunction.make G d rmin rmax cp).findKnotSpan
              ((LearnableFunction.make G d rmin rmax cp).clampInput x))
            ((LearnableFunction.make G d rmin rmax cp).clampInput x) (j - r)) := by
  set f := LearnableFunction.make G d rmin rmax cp with hf
  set xc := f.clampInput x with hxc
  set s := f.findKnotSpan xc with hs
  obtain ⟨hlo, hhi⟩ := findKnotSpan_bounds G d rmin rmax cp hG hcp xc
  rw [← hf] at hlo hhi
  have hdeg : f.degree = min d (G - 1) := rfl
  rw [hdeg] at hlo
  constructor
  · intro r j hr1 hrj hjp
    rw [hdeg] at hjp
    refine sub_pos.mpr (make_kv_straddle G d rmin rmax cp hG hr s _ _
      hlo hhi (by omega) (by omega) (by omega))
  · intro j r hj1 hjp hrj
    rw [hdeg] at hjp
    have hsum : basisRight f s xc (r + 1) + basisLeft f s xc (j - r)
        = f.kv (s + (r + 1)) - f.kv (s + 1 - (j - r)) := by
      unfold basisRight basisLeft
      ring
    rw [hsum]
    refine sub_pos.mpr (make_kv_straddle G d rmin rmax cp hG hr s _ _
      hlo hhi (by omega) (by omega) (by omega))

/-- Witness for `spline_denominators_pos` at concrete indices. -/
theorem spline_denominators_pos_witness :
    (0 < (LearnableFunction.make 2 1 (-1) 1 [0, 1, 2]).kv
          ((LearnableFunction.make 2 1 (-1) 1 [0, 1, 2]).findKnotSpan
            ((LearnableFunction.make 2 1 (-1) 1 [0, 1, 2]).clampInput (1/3)) + 1 - 1 + 1)
        - (LearnableFunction.make 2 1 (-1) 1 [0, 1, 2]).kv
          ((LearnableFunction.make 2 1 (-1) 1 [0, 1, 2]).findKnotSpan
            ((LearnableFunction.make 2 1 (-1) 1 [0, 1, 2]).clampInput (1/3))
            - (LearnableFunction.make 2 1 (-1) 1 [0, 1, 2]).degree + 1)) ∧
    (0 < basisRight (LearnableFunction.make 2 1 (-1) 1 [0, 1, 2])
          ((LearnableFunction.make 2 1 (-1) 1 [0, 1, 2]).findKnotSpan
            ((LearnableFunction.make 2 1 (-1) 1 [0, 1, 2]).clampInput (1/3)))
          ((LearnableFunction.make 2 1 (-1) 1 [0, 1, 2]).clampInput (1/3)) (0 + 1)
        + basisLeft (LearnableFunction.make 2 1 (-1) 1 [0, 1, 2])
          ((LearnableFunction.make 2 1 (-1) 1 [0, 1, 2]).findKnotSpan
            ((LearnableFunction.make 2 1 (-1) 1 [0, 1, 2]).clampInput (1/3)))
          ((LearnableFunction.make 2 1 (-1) 1 [0, 1, 2]).clampInput (1/3)) (1 - 0)) :=
  ⟨(spline_denominators_pos 2 1 (-1) 1 [0, 1, 2] (by norm_num) rfl
      (by norm_num) (1/3)).1 1 1 le_rfl le_rfl (by decide),
   (spline_denominators_pos 2 1 (-1) 1 [0, 1, 2] (by norm_num) rfl
      (by norm_num) (1/3)).2 1 0 le_rfl (by decide) (by decide)⟩

/-! ## Partition of unity -/

lemma getD_set_ne {l : List ℚ} {i j : Nat} (a d : ℚ) (h : i ≠ j) :
    (l.set i a).getD j d = l.getD j d := by
  rw [List.getD_eq_getElem?_getD, List.getD_eq_getElem?_getD,
    List.getElem?_set_ne h]

lemma getD_replicate_zero (n i : Nat) :
    (List.replicate n (0 : ℚ)).getD i 0 = 0 := by
  rw [List.getD_eq_getElem?_getD, List.getElem?_replicate]
  split <;> simp

lemma sum_set_lt (l : List ℚ) (i : Nat) (a : ℚ) (h : i < l.length) :
    (l.set i a).sum = l.sum - l.getD i 0 + a := by
  induction l generalizing i with
  | nil => simp at h
  | cons x xs ih =>
    cases i with
    | zero => simp [List.sum_cons]; ring
    | succ i =>
      simp only [List.set_cons_succ, List.sum_cons, List.getD_cons_succ]
      rw [ih i (by simpa using h)]
      ring

lemma basisInner_length (f : LearnableFunction) (span : Nat) (x : ℚ) (j : Nat) :
    ∀ (bf : List ℚ) (r : Nat) (saved : ℚ),
      (basisInner f span x j r saved bf).length = bf.length + 1 := by
  intro bf
  induction bf with
  | nil => intro r saved; simp [basisInner]
  | cons b bs ih => intro r saved; simp [basisInner, ih]

lemma basisListD_length (f : LearnableFunction) (span : Nat) (x : ℚ) (k : Nat) :
    (basisListD f span x k).length = k + 1 := by
  induction k with
  | zero => simp [basisListD]
  | succ k ih => rw [basisListD, basisInner_length, ih]

/-- The inner basis loop preserves the running total: the new entries
sum to `saved` plus the old entries, provided no denominator vanishes. -/
lemma basisInner_sum (f : LearnableFunction) (span : Nat) (x : ℚ) (j : Nat) :
    ∀ (bf : List ℚ) (r : Nat) (saved : ℚ),
      (∀ k, k < bf.length →
        basisRight f span x (r + k + 1) + basisLeft f span x (j - (r + k)) ≠ 0) →
      (basisInner f span x j r saved bf).sum = saved + bf.sum := by
  intro bf
  induction bf with
  | nil => intro r saved _; simp [basisInner]
  | cons b bs ih =>
    intro r saved hden
    have hd0 : basisRight f span x (r + 1) + basisLeft f span x (j - r) ≠ 0 := by
      have h0 := hden 0 (by simp)
      simpa using h0
    simp only [basisInner, List.sum_cons]
    rw [ih (r + 1) _ (fun k hk => by
      have h2 := hden (k + 1) (by simp only [List.length_cons]; omega)
      have e1 : r + (k + 1) + 1 = r + 1 + k + 1 := by omega
      have e2 : j - (r + (k + 1)) = j - (r + 1 + k) := by omega
      rw [e1, e2] at h2
      exact h2)]
    field_simp
    ring

/-- Each outer iteration of `computeBasisFunctions` keeps the entries
summing to 1 (partition of unity along the triangular recurrence). -/
lemma basisListD_sum (f : LearnableFunction) (span : Nat) (x : ℚ) (k : Nat)
    (hden : ∀ j r, 1 ≤ j → j ≤ k → r < j →
      basisRight f span x (r + 1) + basisLeft f span x (j - r) ≠ 0) :
    (basisListD f span x k).sum = 1 := by
  induction k with
  | zero => simp [basisListD]
  | succ k ih =>
    rw [basisListD]
    rw [basisInner_sum f span x (k + 1) _ 0 0 (fun m hm => by
      rw [basisListD_length] at hm
      have h2 := hden (k + 1) m (by omega) le_rfl (by omega)
      have e1 : 0 + m + 1 = m + 1 := by omega
      have e2 : k + 1 - (0 + m) = k + 1 - m := by omega
      rw [e1, e2]
      exact h2)]
    rw [ih (fun j r h1 h2 h3 => hden j r h1 (by omega) h3)]
    norm_num

/-- The gradient-scatter fold of `getControlPointGradients`: after
processing basis indices `0..m-1` the vector still has length `n`, is
`0` at every position at or beyond `span - p + m`, and sums to the first
`m` basis values. -/
lemma scatter_fold_facts (bf : List ℚ) (span p n : Nat)
    (hspan : p ≤ span) (hsn : span < n) :
    ∀ m, m ≤ p + 1 →
      ((List.range m).foldl
          (fun g j => if span - p + j < g.length
            then g.set (span - p + j) (bf.getD j 0) else g)
          (List.replicate n 0)).length = n ∧
      (∀ i, span - p + m ≤ i →
        ((List.range m).foldl
            (fun g j => if span - p + j < g.length
              then g.set (span - p + j) (bf.getD j 0) else g)
            (List.replicate n 0)).getD i 0 = 0) ∧
      ((List.range m).foldl
          (fun g j => if span - p + j < g.length
            then g.set (span - p + j) (bf.getD j 0) else g)
          (List.replicate n 0)).sum = (bf.take m).sum := by
  intro m
  induction m with
  | zero =>
    intro _
    refine ⟨by simp, fun i _ => getD_replicate_zero n i, by simp⟩
  | succ m ih =>
    intro hm
    obtain ⟨ihlen, ihzero, ihsum⟩ := ih (by omega)
    rw [List.range_succ, List.foldl_append, List.foldl_cons, List.foldl_nil]
    have hidx : span - p + m < n := by omega
    rw [ihlen, if_pos hidx]
    refine ⟨by rw [List.length_set, ihlen], ?_, ?_⟩
    · intro i hi
      rw [getD_set_ne _ _ (by omega), ihzero i (by omega)]
    · rw [sum_set_lt _ _ _ (by rw [ihlen]; exact hidx),
        ihzero (span - p + m) le_rfl, ihsum, List.take_succ, List.sum_append]
      rw [List.getD_eq_getElem?_getD]
      rcases hbm : bf[m]? with _ | a <;> simp [hbm]

/-- C4: for every constructor-built function (grid size ≥ 1, clamped
degree, domain `rmin < rmax`) and every `x` in the input domain, the
entries of `getControlPointGradients(x)` sum to exactly 1: the
`degree+1` active basis values scattered into the zero vector form a
partition of unity (exactly, in rational arithmetic). -/
theorem gradients_partition_of_unity (G d : Nat) (rmin rmax : ℚ)
    (cp : List ℚ) (hG : 1 ≤ G) (hcp : cp.length = G + 1) (hr : rmin < rmax)
    (x : ℚ) (_hx1 : rmin ≤ x) (_hx2 : x ≤ rmax) :
    ((LearnableFunction.make G d rmin rmax cp).getControlPointGradients x).sum
      = 1 := by
  set f := LearnableFunction.make G d rmin rmax cp with hf
  set xc := f.clampInput x with hxc
  set s := f.findKnotSpan xc with hs
  obtain ⟨hlo, hhi⟩ := findKnotSpan_bounds G d rmin rmax cp hG hcp xc
  rw [← hf] at hlo hhi
  rw [← hs] at hlo hhi
  have hcpl : f.controlPoints.length = G + 1 := hcp
  have hdeg : f.degree = min d (G - 1) := rfl
  show ((List.range (f.degree + 1)).foldl
      (fun g j => if s - f.degree + j < g.length
        then g.set (s - f.degree + j) ((f.computeBasisFunctions s xc).getD j 0)
        else g)
      (List.replicate f.controlPoints.length 0)).sum = 1
  rw [(scatter_fold_facts (f.computeBasisFunctions s xc) s f.degree
      f.controlPoints.length hlo (by omega) (f.degree + 1) le_rfl).2.2]
  have hcb : f.computeBasisFunctions s xc = basisListD f s xc f.degree := rfl
  rw [hcb, List.take_of_length_le (le_of_eq (basisListD_length f s xc f.degree))]
  refine basisListD_sum f s xc f.degree (fun j r h1 h2 h3 => ?_)
  have hsum : basisRight f s xc (r + 1) + basisLeft f s xc (j - r)
      = f.kv (s + (r + 1)) - f.kv (s + 1 - (j - r)) := by
    unfold basisRight basisLeft
    ring
  rw [hsum]
  rw [hdeg] at h2
  rw [hdeg] at hlo
  exact ne_of_gt (sub_pos.mpr (make_kv_straddle G d rmin rmax cp hG hr s _ _
    hlo hhi (by omega) (by omega) (by omega)))

/-- Witness for `gradients_partition_of_unity`. -/
theorem gradients_partition_of_unity_witness :
    ((LearnableFunction.make 2 1 (-1) 1 [0, 1, 2]).getControlPointGradients
      (1/3)).sum = 1 :=
  gradients_partition_of_unity 2 1 (-1) 1 [0, 1, 2] (by norm_num) rfl
    (by norm_num) (1/3) (by norm_num) (by norm_num)

/-! ## Endpoint interpolation -/

lemma make_kv_eq_rmin (G d : Nat) (rmin rmax : ℚ) (cp : List ℚ)
    (hG : 1 ≤ G) (i : Nat) (hi : i ≤ min d (G - 1)) :
    (LearnableFunction.make G d rmin rmax cp).kv i = rmin := by
  have h := initializeKnotVector_getD (min d (G - 1)) G rmin rmax (by omega) i
    (by omega)
  show (initializeKnotVector (min d (G - 1)) G rmin rmax).getD i 0 = rmin
  rw [h]
  have hz : min i (G + 1) - min d (G - 1) = 0 := by omega
  rw [hz]
  norm_num

lemma make_kv_eq_rmax (G d : Nat) (rmin rmax : ℚ) (cp : List ℚ)
    (hG : 1 ≤ G) (i : Nat) (h1 : G + 1 ≤ i) (h2 : i ≤ G + min d (G - 1) + 1) :
    (LearnableFunction.make G d rmin rmax cp).kv i = rmax := by
  have h := initializeKnotVector_getD (min d (G - 1)) G rmin rmax (by omega) i
    (by omega)
  show (initializeKnotVector (min d (G - 1)) G rmin rmax).getD i 0 = rmax
  rw [h]
  have hmin : min i (G + 1) - min d (G - 1) = (G - min d (G - 1)) + 1 := by
    omega
  rw [hmin]
  have hD : (((G - min d (G - 1) : Nat) : ℚ) + 1) ≠ 0 := by positivity
  push_cast
  rw [mul_div_assoc, div_self hD, mul_one]
  ring

lemma make_clampInput_min (G d : Nat) (rmin rmax : ℚ) (cp : List ℚ)
    (hr : rmin ≤ rmax) :
    (LearnableFunction.make G d rmin rmax cp).clampInput rmin = rmin := by
  show max rmin (min rmax rmin) = rmin
  rw [min_eq_right hr, max_self]

lemma make_clampInput_max (G d : Nat) (rmin rmax : ℚ) (cp : List ℚ)
    (hr : rmin ≤ rmax) :
    (LearnableFunction.make G d rmin rmax cp).clampInput rmax = rmax := by
  show max rmin (min rmax rmax) = rmax
  rw [min_self, max_eq_right hr]

lemma make_findKnotSpan_min (G d : Nat) (rmin rmax : ℚ) (cp : List ℚ)
    (hG : 1 ≤ G) (hcp : cp.length = G + 1) (hr : rmin < rmax) :
    (LearnableFunction.make G d rmin rmax cp).findKnotSpan rmin
      = (LearnableFunction.make G d rmin rmax cp).degree := by
  unfold LearnableFunction.findKnotSpan
  have hcpl : (LearnableFunction.make G d rmin rmax cp).controlPoints.length
      = G + 1 := hcp
  rw [hcpl]
  have h1 : ¬ (rmin ≥ (LearnableFunction.make G d rmin rmax cp).kv (G + 1 - 1 + 1)) := by
    have : G + 1 - 1 + 1 = G + 1 := by omega
    rw [this, make_kv_eq_rmax G d rmin rmax cp hG (G + 1) le_rfl (by omega)]
    exact not_le.mpr hr
  rw [if_neg h1]
  have h2 : rmin ≤ (LearnableFunction.make G d rmin rmax cp).kv
      (LearnableFunction.make G d rmin rmax cp).degree := by
    have hdeg : (LearnableFunction.make G d rmin rmax cp).degree
        = min d (G - 1) := rfl
    rw [hdeg, make_kv_eq_rmin G d rmin rmax cp hG _ le_rfl]
  rw [if_pos h2]

lemma make_findKnotSpan_max (G d : Nat) (rmin rmax : ℚ) (cp : List ℚ)
    (hG : 1 ≤ G) (hcp : cp.length = G + 1) :
    (LearnableFunction.make G d rmin rmax cp).findKnotSpan rmax = G := by
  unfold LearnableFunction.findKnotSpan
  have hcpl : (LearnableFunction.make G d rmin rmax cp).controlPoints.length
      = G + 1 := hcp
  rw [hcpl]
  have h1 : rmax ≥ (LearnableFunction.make G d rmin rmax cp).kv (G + 1 - 1 + 1) := by
    have : G + 1 - 1 + 1 = G + 1 := by omega
    rw [this, make_kv_eq_rmax G d rmin rmax cp hG (G + 1) le_rfl (by omega)]
  rw [if_pos h1]
  omega

/-- At `x = rmin` with span `degree`, each de Boor outer iteration
shifts the working array: after `k` iterations `d[j] = cp[j - k]`
(every blend coefficient `alpha` is `0` because `x` equals the left
knot). -/
lemma deBoorD_at_min (G d : Nat) (rmin rmax : ℚ) (cp : List ℚ)
    (hG : 1 ≤ G) :
    ∀ k, k ≤ (LearnableFunction.make G d rmin rmax cp).degree →
      ∀ j, k ≤ j → j ≤ (LearnableFunction.make G d rmin rmax cp).degree →
      deBoorD (LearnableFunction.make G d rmin rmax cp)
          (LearnableFunction.make G d rmin rmax cp).degree rmin k j
        = cp.getD (j - k) 0 := by
  set f := LearnableFunction.make G d rmin rmax cp with hf
  have hdeg : f.degree = min d (G - 1) := rfl
  intro k
  induction k with
  | zero =>
    intro _ j hj1 hj2
    show f.controlPoints.getD (f.degree - f.degree + j) 0 = cp.getD (j - 0) 0
    rw [Nat.sub_self, Nat.zero_add, Nat.sub_zero]
    rfl
  | succ k ih =>
    intro hk j hj1 hj2
    show deBoorStep f f.degree rmin (k + 1) (deBoorD f f.degree rmin k) j
      = cp.getD (j - (k + 1)) 0
    unfold deBoorStep
    rw [if_pos ⟨hj1, hj2⟩]
    have hkl : f.kv (f.degree - f.degree + j) = rmin := by
      rw [Nat.sub_self, Nat.zero_add]
      exact make_kv_eq_rmin G d rmin rmax cp hG j (by omega)
    simp only [hkl, sub_self, zero_div, sub_zero, one_mul, zero_mul, add_zero]
    rw [ih (by omega) (j - 1) (by omega) (by omega)]
    have hidx : j - 1 - k = j - (k + 1) := by omega
    rw [hidx]

/-- At `x = rmax` with span `gridSize`, the de Boor working array is a
fixed point: every blend coefficient `alpha` is `1` because `x` equals
the right knot, so `d[j] = cp[gridSize - degree + j]` throughout. -/
lemma deBoorD_at_max (G d : Nat) (rmin rmax : ℚ) (cp : List ℚ)
    (hG : 1 ≤ G) (hr : rmin < rmax) :
    ∀ k, k ≤ (LearnableFunction.make G d rmin rmax cp).degree →
      ∀ j, j ≤ (LearnableFunction.make G d rmin rmax cp).degree →
      deBoorD (LearnableFunction.make G d rmin rmax cp) G rmax k j
        = cp.getD (G - (LearnableFunction.make G d rmin rmax cp).degree + j) 0 := by
  set f := LearnableFunction.make G d rmin rmax cp with hf
  have hdeg : f.degree = min d (G - 1) := rfl
  intro k
  induction k with
  | zero =>
    intro _ j _
    rfl
  | succ k ih =>
    intro hk j hj
    show deBoorStep f G rmax (k + 1) (deBoorD f G rmax k) j
      = cp.getD (G - f.degree + j) 0
    unfold deBoorStep
    by_cases hcond : k + 1 ≤ j ∧ j ≤ f.degree
    · rw [if_pos hcond]
      have hkr : f.kv (G + j - (k + 1) + 1) = rmax := by
        refine make_kv_eq_rmax G d rmin rmax cp hG _ (by omega) ?_
        rw [hdeg] at hj
        omega
      have hkl_lt : f.kv (G - f.degree + j) < rmax := by
        have hb := make_kv_eq_rmax G d rmin rmax cp hG (G + 1) le_rfl (by omega)
        rw [← hb]
        refine make_kv_straddle G d rmin rmax cp hG hr G _ _ (by omega) le_rfl
          ?_ le_rfl (by omega)
        rw [hdeg] at hj
        omega
      have hne : rmax - f.kv (G - f.degree + j) ≠ 0 :=
        ne_of_gt (sub_pos.mpr hkl_lt)
      simp only [hkr]
      rw [div_self hne]
      rw [ih (by omega) j hj, ih (by omega) (j - 1) (by omega)]
      ring
    · rw [if_neg hcond]
      exact ih (by omega) j hj

/-- C5: for a constructor-built function with grid size ≥ 2 and clamped
degree ≥ 1 (over any domain `rmin < rmax`), `evaluate(rmin)` returns the
first control point and `evaluate(rmax)` the last one (endpoint
interpolation of the clamped B-spline). -/
theorem evaluate_endpoint_interpolation (G d : Nat) (rmin rmax : ℚ)
    (cp : List ℚ) (hG : 2 ≤ G) (_hd : 1 ≤ min d (G - 1)) (hr : rmin < rmax)
    (hcp : cp.length = G + 1) :
    (LearnableFunction.make G d rmin rmax cp).evaluate rmin = cp.getD 0 0 ∧
    (LearnableFunction.make G d rmin rmax cp).evaluate rmax = cp.getD G 0 := by
  have hG1 : 1 ≤ G := by omega
  constructor
  · show (LearnableFunction.make G d rmin rmax cp).deBoor
        ((LearnableFunction.make G d rmin rmax cp).findKnotSpan
          ((LearnableFunction.make G d rmin rmax cp).clampInput rmin))
        ((LearnableFunction.make G d rmin rmax cp).clampInput rmin)
      = cp.getD 0 0
    rw [make_clampInput_min G d rmin rmax cp (le_of_lt hr),
      make_findKnotSpan_min G d rmin rmax cp hG1 hcp hr]
    show deBoorD (LearnableFunction.make G d rmin rmax cp)
        (LearnableFunction.make G d rmin rmax cp).degree rmin
        (LearnableFunction.make G d rmin rmax cp).degree
        (LearnableFunction.make G d rmin rmax cp).degree
      = cp.getD 0 0
    rw [deBoorD_at_min G d rmin rmax cp hG1 _ le_rfl _ le_rfl le_rfl,
      Nat.sub_self]
  · show (LearnableFunction.make G d rmin rmax cp).deBoor
        ((LearnableFunction.make G d rmin rmax cp).findKnotSpan
          ((LearnableFunction.make G d rmin rmax cp).clampInput rmax))
        ((LearnableFunction.make G d rmin rmax cp).clampInput rmax)
      = cp.getD G 0
    rw [make_clampInput_max G d rmin rmax cp (le_of_lt hr),
      make_findKnotSpan_max G d rmin rmax cp hG1 hcp]
    show deBoorD (LearnableFunction.make G d rmin rmax cp) G rmax
        (LearnableFunction.make G d rmin rmax cp).degree
        (LearnableFunction.make G d rmin rmax cp).degree
      = cp.getD G 0
    rw [deBoorD_at_max G d rmin rmax cp hG1 hr _ le_rfl _ le_rfl]
    congr 1
    have hdeg : (LearnableFunction.make G d rmin rmax cp).degree
        = min d (G - 1) := rfl
    rw [hdeg]
    omega

/-- Witness for `evaluate_endpoint_interpolation`. -/
theorem evaluate_endpoint_interpolation_witness :
    (LearnableFunction.make 2 1 (-1) 1 [5, 7, 9]).evaluate (-1)
        = ([5, 7, 9] : List ℚ).getD 0 0 ∧
    (LearnableFunction.make 2 1 (-1) 1 [5, 7, 9]).evaluate 1
        = ([5, 7, 9] : List ℚ).getD 2 0 :=
  evaluate_endpoint_interpolation 2 1 (-1) 1 [5, 7, 9] le_rfl (by decide)
    (by norm_num) rfl

/-! ## Linearity in the control points -/

lemma getD_zipWith_comb (c1 c2 : List ℚ) (a : ℚ) (hlen : c1.length = c2.length)
    (i : Nat) :
    (List.zipWith (fun u v => a * u + (1 - a) * v) c1 c2).getD i 0
      = a * c1.getD i 0 + (1 - a) * c2.getD i 0 := by
  rcases lt_or_ge i c1.length with hi | hi
  · exact getD_zipWith_eq _ c1 c2 i 0 hi (by omega)
  · rw [List.getD_eq_getElem?_getD, List.getElem?_eq_none
        (by rw [List.length_zipWith]; omega)]
    rw [List.getD_eq_getElem?_getD, List.getElem?_eq_none hi]
    rw [List.getD_eq_getElem?_getD, List.getElem?_eq_none (by omega)]
    simp

/-- The de Boor working array is affine-linear in the control points:
with identical knot vector, degree and domain, blending the control
points blends every intermediate `d[j]` with the same coefficients. -/
lemma deBoorD_linear (G d : Nat) (rmin rmax : ℚ) (c1 c2 : List ℚ) (a : ℚ)
    (hlen : c1.length = c2.length) (span : Nat) (x : ℚ) :
    ∀ r j,
      deBoorD (LearnableFunction.make G d rmin rmax
          (List.zipWith (fun u v => a * u + (1 - a) * v) c1 c2)) span x r j
        = a * deBoorD (LearnableFunction.make G d rmin rmax c1) span x r j
          + (1 - a) * deBoorD (LearnableFunction.make G d rmin rmax c2) span x r j := by
  have hd1 : (LearnableFunction.make G d rmin rmax c1).degree = min d (G - 1) := rfl
  have hd2 : (LearnableFunction.make G d rmin rmax c2).degree = min d (G - 1) := rfl
  have hdc : (LearnableFunction.make G d rmin rmax
      (List.zipWith (fun u v => a * u + (1 - a) * v) c1 c2)).degree
        = min d (G - 1) := rfl
  have hkv1 : (LearnableFunction.make G d rmin rmax c1).kv
      = (LearnableFunction.make G d rmin rmax
          (List.zipWith (fun u v => a * u + (1 - a) * v) c1 c2)).kv := rfl
  have hkv2 : (LearnableFunction.make G d rmin rmax c2).kv
      = (LearnableFunction.make G d rmin rmax
          (List.zipWith (fun u v => a * u + (1 - a) * v) c1 c2)).kv := rfl
  intro r
  induction r with
  | zero =>
    intro j
    show (List.zipWith (fun u v => a * u + (1 - a) * v) c1 c2).getD
        (span - min d (G - 1) + j) 0
      = a * c1.getD (span - min d (G - 1) + j) 0
        + (1 - a) * c2.getD (span - min d (G - 1) + j) 0
    exact getD_zipWith_comb c1 c2 a hlen _
  | succ r ih =>
    intro j
    show deBoorStep _ span x (r + 1) _ j
      = a * deBoorStep _ span x (r + 1) _ j
        + (1 - a) * deBoorStep _ span x (r + 1) _ j
    unfold deBoorStep
    simp only [hd1, hd2, hdc, hkv1, hkv2]
    by_cases hcond : r + 1 ≤ j ∧ j ≤ min d (G - 1)
    · rw [if_pos hcond, if_pos hcond, if_pos hcond]
      rw [ih j, ih (j - 1)]
      ring
    · rw [if_neg hcond, if_neg hcond, if_neg hcond]
      exact ih j

/-- The term `findKnotSpan` depends only on the knot vector, the degree and the
number of control points. -/
lemma findKnotSpan_congr (f g : LearnableFunction)
    (hkv : f.knotVector = g.knotVector) (hdeg : f.degree = g.degree)
    (hlen : f.controlPoints.length = g.controlPoints.length) (x : ℚ) :
    f.findKnotSpan x = g.findKnotSpan x := by
  unfold LearnableFunction.findKnotSpan LearnableFunction.kv
  rw [hkv, hdeg, hlen]

/-- C9: `evaluate` is affine-linear in the control-point vector: with
the knot vector, degree and domain fixed, for any two control-point
vectors of the same length, any scalar `a` and any input `x`,
evaluating `a*c1 + (1-a)*c2` equals `a` times the evaluation with `c1`
plus `1-a` times the evaluation with `c2`. -/
theorem evaluate_linear_in_control_points (G d : Nat) (rmin rmax : ℚ)
    (c1 c2 : List ℚ) (a x : ℚ) (hlen : c1.length = c2.length) :
    (LearnableFunction.make G d rmin rmax
        (List.zipWith (fun u v => a * u + (1 - a) * v) c1 c2)).evaluate x
      = a * (LearnableFunction.make G d rmin rmax c1).evaluate x
        + (1 - a) * (LearnableFunction.make G d rmin rmax c2).evaluate x := by
  have hxc : (LearnableFunction.make G d rmin rmax
      (List.zipWith (fun u v => a * u + (1 - a) * v) c1 c2)).clampInput x
        = (LearnableFunction.make G d rmin rmax c1).clampInput x := rfl
  have hxc2 : (LearnableFunction.make G d rmin rmax c2).clampInput x
      = (LearnableFunction.make G d rmin rmax c1).clampInput x := rfl
  have hs1 : (LearnableFunction.make G d rmin rmax
      (List.zipWith (fun u v => a * u + (1 - a) * v) c1 c2)).findKnotSpan
        ((LearnableFunction.make G d rmin rmax c1).clampInput x)
      = (LearnableFunction.make G d rmin rmax c1).findKnotSpan
        ((LearnableFunction.make G d rmin rmax c1).clampInput x) := by
    refine findKnotSpan_congr
      (LearnableFunction.make G d rmin rmax
        (List.zipWith (fun u v => a * u + (1 - a) * v) c1 c2))
      (LearnableFunction.make G d rmin rmax c1) rfl rfl ?_ _
    show (List.zipWith (fun u v => a * u + (1 - a) * v) c1 c2).length = c1.length
    rw [List.length_zipWith]
    omega
  have hs2 : (LearnableFunction.make G d rmin rmax c2).findKnotSpan
        ((LearnableFunction.make G d rmin rmax c1).clampInput x)
      = (LearnableFunction.make G d rmin rmax c1).findKnotSpan
        ((LearnableFunction.make G d rmin rmax c1).clampInput x) := by
    refine findKnotSpan_congr (LearnableFunction.make G d rmin rmax c2)
      (LearnableFunction.make G d rmin rmax c1) rfl rfl ?_ _
    exact hlen.symm
  show (LearnableFunction.make G d rmin rmax
      (List.zipWith (fun u v => a * u + (1 - a) * v) c1 c2)).deBoor _ _
    = a * (LearnableFunction.make G d rmin rmax c1).deBoor _ _
      + (1 - a) * (LearnableFunction.make G d rmin rmax c2).deBoor _ _
  unfold LearnableFunction.deBoor
  rw [hxc, hxc2, hs1, hs2]
  exact deBoorD_linear G d rmin rmax c1 c2 a hlen _ _ _ _

/-- Witness for `evaluate_linear_in_control_points`. -/
theorem evaluate_linear_in_control_points_witness :
    (LearnableFunction.make 2 1 (-1) 1
        (List.zipWith (fun u v => (1/3 : ℚ) * u + (1 - 1/3) * v)
          [1, 2, 3] [4, 5, 6])).evaluate (1/2)
      = (1/3) * (LearnableFunction.make 2 1 (-1) 1 [1, 2, 3]).evaluate (1/2)
        + (1 - 1/3) * (LearnableFunction.make 2 1 (-1) 1 [4, 5, 6]).evaluate (1/2) :=
  evaluate_linear_in_control_points 2 1 (-1) 1 [1, 2, 3] [4, 5, 6] (1/3) (1/2) rfl

/-! ## The zero-noise scenario -/

/-- With numeric noise `0`, every control point initializes to exactly
`(r - 0.5) * 0 = 0`, whatever the random draws. -/
lemma initializeControlPoints_zero (G : Nat) (rand : Nat → ℚ) :
    initializeControlPoints G 0 rand = List.replicate (G + 1) 0 := by
  unfold initializeControlPoints
  have h : (fun i : Nat => (rand i - 1/2) * 0) = fun _ : Nat => (0 : ℚ) := by
    funext i
    ring
  rw [h, List.map_const', List.length_range]

/-- The de Boor array over all-zero control points is identically zero
(each blend maps zeros to zero, whatever the coefficients). -/
lemma deBoorD_zero (G d : Nat) (rmin rmax : ℚ) (n span : Nat) (x : ℚ) :
    ∀ r j, deBoorD (LearnableFunction.make G d rmin rmax
      (List.replicate n 0)) span x r j = 0 := by
  intro r
  induction r with
  | zero =>
    intro j
    exact getD_replicate_zero n _
  | succ r ih =>
    intro j
    show deBoorStep _ span x (r + 1) _ j = 0
    unfold deBoorStep
    split
    · rw [ih j, ih (j - 1)]
      ring
    · exact ih j

/-- A zero spline is identically zero. -/
lemma evaluate_zero (G d : Nat) (rmin rmax : ℚ) (n : Nat) (x : ℚ) :
    (LearnableFunction.make G d rmin rmax (List.replicate n 0)).evaluate x
      = 0 :=
  deBoorD_zero G d rmin rmax n _ _ _ _

/-- C8: building shape `[1,1,1]` with grid size 4, degree 3 and numeric
init noise `0.0` yields control points all `0` on both edges (whatever
the random stream), and `kanForwardProp` with inputs `[0.5]` and
`recordHistogram = false` returns exactly `0`. -/
theorem zero_noise_scenario (rands : Nat → Nat → Nat → Nat → ℚ) :
    (edgeAt (buildKANNetwork [1, 1, 1] 4 3 0 rands) 1 0 0).learnableFunction.controlPoints
        = List.replicate 5 0 ∧
    (edgeAt (buildKANNetwork [1, 1, 1] 4 3 0 rands) 2 0 0).learnableFunction.controlPoints
        = List.replicate 5 0 ∧
    (kanForwardProp (buildKANNetwork [1, 1, 1] 4 3 0 rands) [1/2] false).toOption.map
        Prod.snd = some 0 := by
  have hbuild : buildKANNetwork [1, 1, 1] 4 3 0 rands
      = buildKANNetwork [1, 1, 1] 4 3 0 (fun _ _ _ _ => 0) := by
    unfold buildKANNetwork mkKANEdge
    norm_num [initializeControlPoints_zero, List.range_succ]
  rw [hbuild]
  refine ⟨?_, ?_, ?_⟩
  · norm_num [buildKANNetwork, mkKANEdge, edgeAt, initializeControlPoints_zero,
      List.range_succ]
    rfl
  · norm_num [buildKANNetwork, mkKANEdge, edgeAt, initializeControlPoints_zero,
      List.range_succ]
    rfl
  · norm_num [buildKANNetwork, mkKANEdge, initializeControlPoints_zero,
      List.range_succ, kanForwardProp, forwardLayers, KANNode.forward,
      KANEdge.forward, getKANOutputNode, evaluate_zero]
    exact ⟨_, rfl⟩

/-! ## The backprop reset -/

/-- C1 (amended): inside the `kanBackProp` layer loop, for every layer
index `i ≥ 2` the state on which `backward()` runs (`preBackwardState`,
the network after the conditional reset in `kanBackPropStep`) has
`outputDer = 0` on every node of layer `i - 1`.  Layer `1` is excluded:
the guard `layerIdx > 1` skips the reset of the input layer. -/
theorem kanBackProp_reset_spec (net : KANNetwork) (i : Nat) (hi : 2 ≤ i) :
    ∀ nd ∈ (preBackwardState net i).getD (i - 1) [], nd.outputDer = 0 := by
  intro nd hnd
  unfold preBackwardState at hnd
  rw [if_pos (by omega : i > 1)] at hnd
  rw [List.getD_eq_getElem?_getD, List.getElem?_modify] at hnd
  cases h : net[i - 1]? with
  | none =>
    rw [h] at hnd
    simp at hnd
  | some layer =>
    rw [h] at hnd
    simp only [Option.map_some', Option.getD_some, if_pos rfl] at hnd
    unfold zeroLayerDer at hnd
    obtain ⟨n0, _, hn0⟩ := List.mem_map.mp hnd
    rw [← hn0]

/-- Witness for `kanBackProp_reset_spec`: a three-layer state whose
middle layer has a stale nonzero `outputDer`; before `backward()` runs
on layer 2 it has been reset to 0. -/
theorem kanBackProp_reset_spec_witness :
    (((preBackwardState
        [[{ output := 0, outputDer := 3, isActive := true, inputEdges := [] }],
         [{ output := 0, outputDer := 5, isActive := true, inputEdges := [] }],
         [{ output := 0, outputDer := 7, isActive := true, inputEdges := [] }]] 2).getD
        1 []).getD 0
      { output := 0, outputDer := 0, isActive := true, inputEdges := [] }).outputDer
      = 0 := by
  refine kanBackProp_reset_spec
    [[{ output := 0, outputDer := 3, isActive := true, inputEdges := [] }],
     [{ output := 0, outputDer := 5, isActive := true, inputEdges := [] }],
     [{ output := 0, outputDer := 7, isActive := true, inputEdges := [] }]]
    2 (by norm_num) _ ?_
  norm_num [preBackwardState, zeroLayerDer, List.modify,
    List.getD_eq_getElem?_getD]

/-- A concrete backprop state: a `[1, 1]` network whose single edge has
degree-1 spline `[0, 1, 2]` on grid size 2, latched input `0`, and a
forward output of `1` cached on the output node. -/
def exampleEdge : KANEdge :=
  { srcIdx := 0
    learnableFunction := LearnableFunction.make 2 1 (-1) 1 [0, 1, 2]
    lastInput := 0
    accGradients := [0, 0, 0]
    numAccumulatedGrads := 0
    isActive := true
    activationHistogram := List.replicate 20 0
    outputHistogram := List.replicate 20 0
    histogramRange := (-1, 1)
    outputHistogramRange := (-2, 2)
    observedInputMin := none
    observedInputMax := none
    observedOutputMin := none
    observedOutputMax := none }

/-- The input node of the example network. -/
def exampleNode0 : KANNode :=
  { output := 0, outputDer := 0, isActive := true, inputEdges := [] }

/-- The example two-layer network. -/
def exampleNet : KANNetwork :=
  [[exampleNode0],
   [{ output := 1, outputDer := 0, isActive := true, inputEdges := [exampleEdge] }]]

set_option maxHeartbeats 4000000 in
/-- C1 counterexample: on a two-layer network the input layer's
`outputDer` is *not* zero immediately before `backward()` runs on layer
1 during a second `kanBackProp` call (for a 2-layer network the whole
call is `kanBackPropStep` at `layerIdx = 1`, acting on
`preBackwardState (setOutputNodeDer s target errorFunc) 1`): after one
call the input node's derivative is `1`, it is still `1` (not `0`) at
that instant of the second call, and after the second call it has
accumulated to `2` — the contribution of the first backward pass is
retained. -/
theorem kanBackProp_input_layer_leak :
    (((preBackwardState
        (setOutputNodeDer (kanBackProp exampleNet 0 Errors.SQUARE) 0
          Errors.SQUARE) 1).getD 0 []).getD 0 exampleNode0).outputDer = 1 ∧
    ¬ ((((preBackwardState
        (setOutputNodeDer (kanBackProp exampleNet 0 Errors.SQUARE) 0
          Errors.SQUARE) 1).getD 0 []).getD 0 exampleNode0).outputDer = 0) ∧
    (((kanBackProp (kanBackProp exampleNet 0 Errors.SQUARE) 0
        Errors.SQUARE).getD 0 []).getD 0 exampleNode0).outputDer = 2 := by
  norm_num [exampleNet, exampleNode0, exampleEdge, kanBackProp,
    kanBackPropLoop, kanBackPropStep, preBackwardState, setOutputNodeDer,
    backwardLayer, KANNode.backward, KANEdge.accumulateGradients,
    LearnableFunction.derivative, LearnableFunction.evaluate,
    LearnableFunction.clampInput, LearnableFunction.findKnotSpan,
    findKnotSpanLoop, LearnableFunction.kv, LearnableFunction.deBoor,
    deBoorD, deBoorStep, LearnableFunction.make, initializeKnotVector,
    LearnableFunction.getControlPointGradients,
    LearnableFunction.computeBasisFunctions, basisListD, basisInner,
    basisLeft, basisRight, Errors.SQUARE, List.modify, List.range_succ,
    List.replicate, List.getD_eq_getElem?_getD]
